import Mathlib

/-!
Shallow embedding of `jwql/instrument_monitors/common_monitors/edb_telemetry_monitor.py`
(class `EdbMnemonicMonitor`), over exact rational arithmetic.

Timestamps and telemetry values are modelled as `ℚ`.  The source stores one
astropy table per mnemonic and reads its time column as both `data["dates"]`
and `data["MJD"]`, and its value column as both `data["euvalues"]` and
`data["data"]`; the embedding carries a single `dates` list and a single
`euvalues` list for the two respective pairs of column names.

The standard deviation returned by `astropy.stats.sigma_clipped_stats` is
irrational in general, so the embedding represents it throughout by its
square (the variance, `ddof = 0`, exactly as `numpy.std` computes it).
Every comparison the source makes against the standard deviation is of the
form `d >= t * std` or `|x - c| <= sigma * std` with the left side and the
clipping factor nonnegative, so each is encoded by the equivalent exact
comparison of squares; the negative-threshold corner (where `t * std <= 0`
makes the test vacuously true) is carried explicitly.

Python runtime failures that the source can actually hit (out-of-range
indexing, unbound/misspelled local names, `and` applied to multi-element
numpy boolean arrays, numpy-style boolean masks applied to Python lists,
missing dict keys, an explicit `raise NotImplementedError`) are modelled as
values of `PyErr` in an `Except` result.
-/

/-- Python runtime exceptions reachable in the source, by the Python class
that would be raised. `nameError` covers `NameError`/`UnboundLocalError`. -/
inductive PyErr where
  | notImplemented
  | indexError
  | keyError
  | typeError
  | valueError
  | nameError
deriving DecidableEq, Repr

/-- `numpy` mean over ℚ. The source never evaluates statistics of an empty
array on the paths proved below; numpy would return NaN there, the embedding
returns 0 for totality. -/
def npMean (xs : List ℚ) : ℚ :=
  if xs.length = 0 then 0 else xs.sum / xs.length

/-- Insertion step for `sortQ`. -/
def insertSorted (x : ℚ) : List ℚ → List ℚ
  | [] => [x]
  | y :: ys => if x ≤ y then x :: y :: ys else y :: insertSorted x ys

/-- Ascending insertion sort, used to evaluate `numpy.median` exactly. -/
def sortQ (xs : List ℚ) : List ℚ :=
  xs.foldr insertSorted []

/-- `numpy.median` over ℚ: middle element of the sorted data for odd length,
average of the two middle elements for even length (0 for empty data, see
`npMean`). -/
def npMedian (xs : List ℚ) : ℚ :=
  let s := sortQ xs
  let n := s.length
  if n = 0 then 0
  else if n % 2 = 1 then s.getD (n / 2) 0
  else (s.getD (n / 2 - 1) 0 + s.getD (n / 2) 0) / 2

/-- Population variance (`numpy.std` with `ddof = 0`, squared) over ℚ. -/
def npVar (xs : List ℚ) : ℚ :=
  npMean (xs.map (fun x => (x - npMean xs) ^ 2))

/-- One iteration of `astropy.stats.sigma_clip` with `cenfunc='median'`,
`stdfunc='std'`: keep the samples `x` with `center - sigma*std ≤ x ≤
center + sigma*std`, encoded exactly as `(x - center)^2 ≤ sigma^2 * var`. -/
def clipOnce (sigma : ℚ) (xs : List ℚ) : List ℚ :=
  let c := npMedian xs
  let v := npVar xs
  xs.filter (fun x => decide ((x - c) ^ 2 ≤ sigma ^ 2 * v))

/-- Iterated sigma clipping: stop at a fixpoint or after the fuel
(astropy's `maxiters`, 5 by default) is exhausted. -/
def clipIter : Nat → ℚ → List ℚ → List ℚ
  | 0, _, xs => xs
  | n + 1, sigma, xs =>
    let ys := clipOnce sigma xs
    if ys = xs then xs else clipIter n sigma ys

/-- Result triple of `sigma_clipped_stats`; `var` is the square of the
standard deviation the source receives (see the file header). -/
structure RStats where
  mean : ℚ
  med : ℚ
  var : ℚ
deriving DecidableEq, Repr

/-- `astropy.stats.sigma_clipped_stats(xs, sigma)` with the library defaults
`cenfunc='median'`, `stdfunc='std'`, `maxiters=5`: mean, median and
(squared) standard deviation of the sigma-clipped data. -/
def sigma_clipped_stats (xs : List ℚ) (sigma : ℚ) : RStats :=
  let ys := clipIter 5 sigma xs
  ⟨npMean ys, npMedian ys, npVar ys⟩

/-- `np.abs(values[1:] - values[0:-1])`: absolute first differences of
consecutive values (lines 353 of the source). -/
def firstDiffs : List ℚ → List ℚ
  | [] => []
  | [_] => []
  | a :: b :: rest => |b - a| :: firstDiffs (b :: rest)

/-- The flagged group-start indices of `find_all_changes` (source lines
353-369): indices `i` with `first_diffs[i] >= threshold * full_dev` (where
`full_dev` is the sigma-clipped standard deviation of the differences,
`sigma=3`), shifted by `+1` as in `jumps += 1`.  The comparison against
`threshold * full_dev` is encoded by squares for `threshold ≥ 0` and is
vacuously true for `threshold < 0` (differences are nonnegative). -/
def jumpIndices (depvals : List ℚ) (threshold : ℚ) : List Nat :=
  let diffs := firstDiffs depvals
  let st := sigma_clipped_stats diffs 3
  let flagged := (List.range diffs.length).filter
    (fun i => decide (threshold < 0) ||
      decide ((diffs.getD i 0) ^ 2 ≥ threshold ^ 2 * st.var))
  flagged.map (fun i => i + 1)

/-- One mnemonic's query result (`jwql.edb.engineering_database.EdbMnemonic`,
a class defined outside the four source files).  `dates` is the time axis
(read by the source as `data["dates"]` and `data["MJD"]`), `euvalues` the
values (read as `data["euvalues"]` and `data["data"]`), `blocks` the
block-boundary index list of §3 of the spec. -/
structure EdbSeries where
  dates : List ℚ
  euvalues : List ℚ
  blocks : List Nat
deriving DecidableEq, Repr

/-- Modelled from the spec: `EdbMnemonic.data_start_time`, the start of the
actual data time range (§3), for a class absent from `src/`; the first
sample's timestamp (the source never reads it on an empty series on the
paths proved below). -/
def data_start_time (s : EdbSeries) : ℚ :=
  s.dates.headD 0

/-- Modelled from the spec: `EdbMnemonic.data_end_time`, the end of the
actual data time range (§3); the last sample's timestamp. -/
def data_end_time (s : EdbSeries) : ℚ :=
  s.dates.getLastD 0

/-- One dependency entry of a mnemonic's configuration: the dictionary
`{name, relation, threshold}` read from the mnemonics json file. -/
structure DepSpec where
  name : String
  relation : String
  threshold : ℚ
deriving DecidableEq, Repr

/-- `self.query_results`, the run-scoped dictionary from mnemonic name to
query result, modelled as an association list (newest entry first, as a
dict overwritten key would be). -/
def lookupQR : List (String × EdbSeries) → String → Option EdbSeries
  | [], _ => none
  | (k, v) :: rest, name => if k = name then some v else lookupQR rest name

/-- Python slice `xs[lo:hi]` for `lo ≤ hi` (and, like Python, empty when
`hi ≤ lo`, clamped at the ends). -/
def sliceQ (xs : List ℚ) (lo hi : Nat) : List ℚ :=
  (xs.drop lo).take (hi - lo)

/-- numpy fancy indexing `xs[idxs]`; an out-of-range index raises
`IndexError`. -/
def npFancyIndex (xs : List ℚ) : List Nat → Except PyErr (List ℚ)
  | [] => Except.ok []
  | i :: is =>
    match xs.get? i with
    | none => Except.error PyErr.indexError
    | some v =>
      match npFancyIndex xs is with
      | Except.error e => Except.error e
      | Except.ok rest => Except.ok (v :: rest)

/-- The dependency-side loop of `find_all_changes` (source lines 377-387):
for each `i < len(jumps) - 1`, sigma-clipped stats of
`dependency.data["data"][jumps[i]:jumps[i+1]]` and the median of the
matching `MJD` slice.  Returns the four parallel lists
`(all_dep_means, all_dep_meds, all_dep_devs, all_dep_times)`. -/
def depBlockStats (dependency : EdbSeries) (jumps : List Nat) :
    List ℚ × List ℚ × List ℚ × List ℚ :=
  let rows := (List.range (jumps.length - 1)).map (fun i =>
    let lo := jumps.getD i 0
    let hi := jumps.getD (i + 1) 0
    let st := sigma_clipped_stats (sliceQ dependency.euvalues lo hi) 3
    (st, npMedian (sliceQ dependency.dates lo hi)))
  (rows.map (fun r => r.1.mean), rows.map (fun r => r.1.med),
   rows.map (fun r => r.1.var), rows.map (fun r => r.2))

/-- `np.where((MJD >= lo) & (MJD < hi))` selection of (timestamp, value)
pairs of a series. -/
def selectRange (m : EdbSeries) (lo hi : ℚ) : List (ℚ × ℚ) :=
  (m.dates.zip m.euvalues).filter
    (fun p => decide (lo ≤ p.1) && decide (p.1 < hi))

/-- The target-side loop of `find_all_changes` (source lines 389-400): for
each `i in range(len(jump_times))` the source reads `jump_times[i]` and
`jump_times[i+1]`; the latter is out of range at the final `i`, raising
`IndexError` exactly as numpy scalar indexing does.  Per surviving step it
returns the clipped stats of the target values with timestamps in
`[jump_times[i], jump_times[i+1])` and the median of those timestamps. -/
def targetLoopGo (mnem : EdbSeries) (jt : List ℚ) :
    List Nat → Except PyErr (List (RStats × ℚ))
  | [] => Except.ok []
  | i :: is =>
    match jt.get? i, jt.get? (i + 1) with
    | some lo, some hi =>
      let sel := selectRange mnem lo hi
      let st := sigma_clipped_stats (sel.map Prod.snd) 3
      let tmed := npMedian (sel.map Prod.fst)
      match targetLoopGo mnem jt is with
      | Except.error e => Except.error e
      | Except.ok rest => Except.ok ((st, tmed) :: rest)
    | _, _ => Except.error PyErr.indexError

/-- The eight parallel result lists of `find_all_changes` (source line
401), in return order. -/
structure ECResult where
  all_means : List ℚ
  all_meds : List ℚ
  all_devs : List ℚ
  all_times : List ℚ
  all_dep_means : List ℚ
  all_dep_meds : List ℚ
  all_dep_devs : List ℚ
  all_dep_times : List ℚ
deriving DecidableEq, Repr

/-- `EdbMnemonicMonitor.find_all_changes(self, mnem_data, dep_list,
threshold=3)` (source lines 337-401).  `qr` is `self.query_results`.
Behaviour, line by line: more than one dependency raises
`NotImplementedError` at once (line 347); `dep_list[0]` on an empty list
raises `IndexError`; a dependency name absent from `query_results` raises
`KeyError`; then the flagged jump indices are computed from the absolute
first differences (see `jumpIndices`), `jump_times = MJD[jumps]`, the
dependency-group stats loop runs (`depBlockStats`), and the target-side
loop runs (`targetLoopGo`), which raises `IndexError` whenever at least
one index was flagged.  The function reads but never writes
`query_results`. -/
def find_all_changes (qr : List (String × EdbSeries)) (mnem : EdbSeries)
    (dep_list : List DepSpec) (threshold : ℚ) : Except PyErr ECResult :=
  if dep_list.length > 1 then Except.error PyErr.notImplemented
  else
    match dep_list.head? with
    | none => Except.error PyErr.indexError
    | some dep0 =>
      match lookupQR qr dep0.name with
      | none => Except.error PyErr.keyError
      | some dependency =>
        let jumps := jumpIndices dependency.euvalues threshold
        match npFancyIndex dependency.dates jumps with
        | Except.error e => Except.error e
        | Except.ok jump_times =>
          let dep4 := depBlockStats dependency jumps
          match targetLoopGo mnem jump_times (List.range jump_times.length) with
          | Except.error e => Except.error e
          | Except.ok rows =>
            Except.ok ⟨rows.map (fun r => r.1.mean), rows.map (fun r => r.1.med),
                       rows.map (fun r => r.1.var), rows.map (fun r => r.2),
                       dep4.1, dep4.2.1, dep4.2.2.1, dep4.2.2.2⟩

/-- `EdbMnemonicMonitor.filter_telemetry(self, data, dep_list)` (source
lines 274-333).  Lines 293-294: an empty dependency list returns the input
series unchanged, before anything else runs.  The non-empty branch builds
conditions through the `condition` module of
`edb_telemetry_monitor_utils`, which is not among the source files, so
that branch is abstracted as the parameter `filterWithDeps`. -/
def filter_telemetry (filterWithDeps : EdbSeries → List DepSpec → EdbSeries)
    (data : EdbSeries) (dep_list : List DepSpec) : EdbSeries :=
  if dep_list.length = 0 then data else filterWithDeps data dep_list

/-- The `"dates"`/`"euvalues"` dictionary that `get_dependency_data`
returns. -/
structure DepData where
  dates : List ℚ
  euvalues : List ℚ
deriving DecidableEq, Repr

/-- Outcome of one `get_dependency_data` call: the dictionary
`self.query_results` after the call, the list of `(starttime, endtime)`
ranges passed to the remote `ed.get_mnemonic` during the call (the
instrumentation that counts remote fetches), and the returned value or
the Python exception raised. -/
structure GDDResult where
  cache : List (String × EdbSeries)
  fetched : List (ℚ × ℚ)
  result : Except PyErr DepData
deriving Repr

/-- `EdbMnemonicMonitor.get_dependency_data(self, dependency, starttime,
endtime)` (source lines 404-461).  `fetch` is the remote service
`ed.get_mnemonic`.  Line by line:
* name not yet cached (line 457): fetch the full requested range, store it
  under the name, return its dates/euvalues;
* cached and the cached actual data range covers `[starttime, endtime]`
  (lines 428-434): the source computes
  `np.where((dates > starttime) and (dates < endtime))` — Python `and`
  evaluates the truth value of the left boolean array, which raises
  `ValueError: the truth value of an array ... is ambiguous` unless the
  array has exactly one element (for one element it yields the right
  array when the element is true, the left otherwise); no remote call is
  made either way;
* cached but not covering (lines 435-443): fetch the full requested range
  again, then line 438 reads the misspelled name `menmonic_data`, raising
  `NameError` before line 443 could merge, so the cache is left
  unchanged. -/
def get_dependency_data (fetch : String → ℚ → ℚ → EdbSeries)
    (qr : List (String × EdbSeries)) (name : String)
    (starttime endtime : ℚ) : GDDResult :=
  match lookupQR qr name with
  | some cached =>
    if data_start_time cached ≤ starttime ∧ data_end_time cached ≥ endtime then
      match cached.dates, cached.euvalues with
      | [d], [v] =>
        if d > starttime then
          if d < endtime then ⟨qr, [], Except.ok ⟨[d], [v]⟩⟩
          else ⟨qr, [], Except.ok ⟨[], []⟩⟩
        else ⟨qr, [], Except.ok ⟨[], []⟩⟩
      | _, _ => ⟨qr, [], Except.error PyErr.valueError⟩
    else
      ⟨qr, [(starttime, endtime)], Except.error PyErr.nameError⟩
  | none =>
    let m := fetch name starttime endtime
    ⟨(name, m) :: qr, [(starttime, endtime)],
     Except.ok ⟨m.dates, m.euvalues⟩⟩

/-- `np.arange(a, b, step)` over ℚ: the `⌈(b - a) / step⌉` values
`a + k * step` (empty when the count is nonpositive). -/
def npArange (a b step : ℚ) : List ℚ :=
  (List.range (Int.toNat ⌈(b - a) / step⌉)).map (fun k => a + (k : ℚ) * step)

/-- `minimal_delta = 1 * u.sec` of `calc_timed_stats` (source line 259),
in days (the MJD unit of the time axis). -/
def minimal_delta : ℚ := 1 / 86400

/-- The bin construction of `calc_timed_stats` (source lines 260-266): for
each consecutive pair of block-boundary indices, edges
`np.arange(dates[blocks[i]], dates[blocks[i+1]] + minimal_delta, bintime)`
and one half-open bin per consecutive pair of edges.  An out-of-range
boundary index raises `IndexError` as in Python. -/
def blockBins (dates : List ℚ) (blocks : List Nat) (bintime : ℚ) :
    List Nat → Except PyErr (List (ℚ × ℚ))
  | [] => Except.ok []
  | i :: is =>
    match blocks.get? i, blocks.get? (i + 1) with
    | some bi, some bj =>
      match dates.get? bi, dates.get? bj with
      | some tmin, some tmax =>
        let edges := npArange tmin (tmax + minimal_delta) bintime
        match blockBins dates blocks bintime is with
        | Except.error e => Except.error e
        | Except.ok rest => Except.ok (edges.zip edges.tail ++ rest)
      | _, _ => Except.error PyErr.indexError
    | _, _ => Except.error PyErr.indexError

/-- All time bins `calc_timed_stats` produces for a series, in order:
the loop of source line 260 runs over `range(len(blocks) - 1)`, so the
final block (from the last boundary to the end of the data) yields no
bins at all. -/
def timedStatsBins (m : EdbSeries) (bintime : ℚ) : Except PyErr (List (ℚ × ℚ)) :=
  blockBins m.dates m.blocks bintime (List.range (m.blocks.length - 1))

/-- The four parallel result lists of `calc_timed_stats` (source line
272). -/
structure TimedStats where
  all_means : List ℚ
  all_meds : List ℚ
  all_stdevs : List ℚ
  all_times : List ℚ
deriving DecidableEq, Repr

/-- `EdbMnemonicMonitor.calc_timed_stats(self, mnem_data, bintime,
sigma=3)` (source lines 229-272): per bin of `timedStatsBins`, the
sigma-clipped stats of the values with `bin_lo ≤ MJD < bin_hi` (line 267);
`all_times` receives `(bin_times[1:] - bin_times[0:-1]) / 2.` (line 264),
i.e. each bin's half-width. -/
def calc_timed_stats (m : EdbSeries) (bintime : ℚ) (sigma : ℚ) :
    Except PyErr TimedStats :=
  match timedStatsBins m bintime with
  | Except.error e => Except.error e
  | Except.ok bins =>
    let stats := bins.map
      (fun p => sigma_clipped_stats ((selectRange m p.1 p.2).map Prod.snd) sigma)
    Except.ok ⟨stats.map RStats.mean, stats.map RStats.med, stats.map RStats.var,
               bins.map (fun p => (p.2 - p.1) / 2)⟩

/-- Lines 631-635 of `EdbMnemonicMonitor.run`: before the window loop, if
the final query window's end time is after `today`, the source evaluates
`query_end_times <= today` on a Python *list* and then indexes the lists
with the resulting mask.  astropy's reflected `Time.__ge__` builds a
boolean numpy array from the list, and indexing a Python list with a
boolean numpy array raises `TypeError`, so the filtering crashes whenever
it would have to remove anything; `query_end_times[-1]` on an empty list
raises `IndexError`; otherwise the window lists pass through unchanged. -/
def filter_future_windows (today : ℚ)
    (query_start_times query_end_times : List ℚ) :
    Except PyErr (List ℚ × List ℚ) :=
  match query_end_times.getLast? with
  | none => Except.error PyErr.indexError
  | some lastEnd =>
    if lastEnd > today then Except.error PyErr.typeError
    else Except.ok (query_start_times, query_end_times)

/-- The per-window loop of `EdbMnemonicMonitor.run` (source lines
637-674) for one mnemonic.  `getInfo` abstracts the body's call
`self.get_mnemonic_info(mnemonic, starttime, endtime, telem_type)` (line
645), which can raise (fetch/filter/aggregation failures) or return data
or `None`.  The loop has no `try`/`except`: an exception from `getInfo`
propagates and ends the mnemonic.  When `getInfo` returns, line 647 reads
`mnemonic_info`, a local only ever assigned further down (line 667), so
the first iteration raises `UnboundLocalError` (a `NameError`).  The
result records the windows for which the body ran, paired with the
outcome. -/
def run_windows (getInfo : ℚ → ℚ → Except PyErr (Option EdbSeries))
    (query_start_times query_end_times : List ℚ) :
    List (ℚ × ℚ) × Except PyErr Unit :=
  match query_start_times.zip query_end_times with
  | [] => ([], Except.ok ())
  | (s, e) :: _ =>
    match getInfo s e with
    | Except.error err => ([(s, e)], Except.error err)
    | Except.ok _ => ([(s, e)], Except.error PyErr.nameError)

/-! ## Claim theorems -/

/-- The empty result of `find_all_changes`: all eight returned lists empty. -/
def emptyEC : ECResult := ⟨[], [], [], [], [], [], [], []⟩

/-- C1 test fixture: the dependency series of the claim, values
`[0,0,0,10,10,10]`. -/
def c1dep : EdbSeries := ⟨[0, 1, 2, 3, 4, 5], [0, 0, 0, 10, 10, 10], []⟩

/-- C1 test fixture: a target series over the same time span. -/
def c1mnem : EdbSeries := ⟨[0, 1, 2, 3, 4, 5], [7, 7, 7, 8, 8, 8], []⟩

/-- C1 counterexample: on dependency values `[0,0,0,10,10,10]` with
`threshold_sigma = 3` the detector does not flag a change point at index 3
(it flags none at all), and no groups are produced: all eight output
arrays are empty, so the data are not partitioned into two groups. -/
theorem c1_counterexample :
    jumpIndices c1dep.euvalues 3 ≠ [3] ∧
    find_all_changes [("D", c1dep)] c1mnem [⟨"D", "=", 0⟩] 3 = Except.ok emptyEC ∧
    emptyEC.all_means.length ≠ 2 ∧ emptyEC.all_dep_means.length ≠ 2 :=
  ⟨of_decide_eq_false (by with_unfolding_all rfl),
   by with_unfolding_all rfl, by decide, by decide⟩

/-- C1 (corrected): on `[0,0,0,10,10,10]` the absolute first differences
are `[0,0,10,0,0]`; sigma clipping removes nothing, so the robust stdev is
4 (variance 16) and the flag threshold `3 × 4 = 12` exceeds the largest
difference 10: zero change points are flagged and `find_all_changes`
returns eight empty arrays. -/
theorem c1_no_change_points :
    sigma_clipped_stats (firstDiffs c1dep.euvalues) 3 = ⟨2, 0, 16⟩ ∧
    jumpIndices c1dep.euvalues 3 = [] ∧
    find_all_changes [("D", c1dep)] c1mnem [⟨"D", "=", 0⟩] 3 = Except.ok emptyEC :=
  ⟨by with_unfolding_all rfl, by with_unfolding_all rfl, by with_unfolding_all rfl⟩

/-- C2 (confirmed): with more than one dependency, `find_all_changes`
raises at line 347 before any computation — for every state of the query
cache, every target series and every threshold the result is the error,
nothing is computed and the cache is not touched (the spec's §7 taxonomy
names this raise `ConfigurationError`; the source's Python class is
`NotImplementedError`). -/
theorem c2_multiple_dependencies_error (qr : List (String × EdbSeries))
    (mnem : EdbSeries) (dep_list : List DepSpec) (threshold : ℚ)
    (h : dep_list.length > 1) :
    find_all_changes qr mnem dep_list threshold =
      Except.error PyErr.notImplemented := by
  unfold find_all_changes
  rw [if_pos h]

/-- C2 witness: a two-dependency list triggers the error. -/
theorem c2_witness :
    find_all_changes [] ⟨[], [], []⟩ [⟨"A", ">", 1⟩, ⟨"B", ">", 1⟩] 3 =
      Except.error PyErr.notImplemented :=
  c2_multiple_dependencies_error [] ⟨[], [], []⟩
    [⟨"A", ">", 1⟩, ⟨"B", ">", 1⟩] 3 (by decide)

/-- C3 fixture: a remote service whose answer for the range `[0, 10]`
contains the two points just outside the requested range, as the source's
line-494 comment says MAST does. -/
def c3fetch : String → ℚ → ℚ → EdbSeries := fun _ _ _ => ⟨[-1, 5, 11], [1, 2, 3], []⟩

/-- C3 fixture: the first call, on an empty cache. -/
def c3call1 : GDDResult := get_dependency_data c3fetch [] "DEP" 0 10

/-- C3 fixture: the second, identical call. -/
def c3call2 : GDDResult := get_dependency_data c3fetch c3call1.cache "DEP" 0 10

/-- C3 (code_bug): two identical calls issue exactly one remote fetch, but
the second call is not answered from the cache — it raises `ValueError`
(line 431 applies Python `and` to multi-element numpy boolean arrays)
instead of returning the cached slice. -/
theorem c3_second_identical_call_value_error :
    c3call1.fetched = [(0, 10)] ∧ c3call1.result ≠ Except.error PyErr.valueError ∧
    c3call2.fetched = [] ∧ c3call2.result = Except.error PyErr.valueError :=
  ⟨by with_unfolding_all rfl,
   by with_unfolding_all simp [c3call1, c3call2, c3fetch, get_dependency_data, lookupQR],
   by with_unfolding_all rfl, by with_unfolding_all rfl⟩

/-- C4 fixture: a remote service returning samples `[0, 5, 10]` for any
request. -/
def c4fetch : String → ℚ → ℚ → EdbSeries := fun _ _ _ => ⟨[0, 5, 10], [1, 2, 3], []⟩

/-- C4 fixture: first call, range `[0, 10]`, on an empty cache. -/
def c4call1 : GDDResult := get_dependency_data c4fetch [] "DEP2" 0 10

/-- C4 fixture: second call, extended range `[0, 20]`. -/
def c4call2 : GDDResult := get_dependency_data c4fetch c4call1.cache "DEP2" 0 20

/-- C4 counterexample: after a fetch covering `[0, 10]`, the request for
`[0, 20]` remotely fetches the entire `[0, 20]` — not only the missing
`(10, 20]` — and no merge into the cache happens: the call raises
`NameError` (misspelled `menmonic_data`, line 438) and leaves the cache
unchanged. -/
theorem c4_counterexample :
    c4call2.fetched = [(0, 20)] ∧ c4call2.fetched ≠ [(10, 20)] ∧
    c4call2.cache = c4call1.cache ∧
    c4call2.result = Except.error PyErr.nameError :=
  ⟨by with_unfolding_all rfl, of_decide_eq_false (by with_unfolding_all rfl),
   by with_unfolding_all rfl, by with_unfolding_all rfl⟩

/-- C4 (corrected): whenever the cached series does not cover the
requested range, `get_dependency_data` fetches the full requested range
`(starttime, endtime)` from the remote service (not the minimal missing
sub-intervals), then raises `NameError` before the merge line runs, so the
cache is left unchanged. -/
theorem c4_partial_coverage_refetches_full_range
    (fetch : String → ℚ → ℚ → EdbSeries) (qr : List (String × EdbSeries))
    (name : String) (starttime endtime : ℚ) (cached : EdbSeries)
    (hl : lookupQR qr name = some cached)
    (hc : ¬ (data_start_time cached ≤ starttime ∧ data_end_time cached ≥ endtime)) :
    get_dependency_data fetch qr name starttime endtime =
      ⟨qr, [(starttime, endtime)], Except.error PyErr.nameError⟩ := by
  unfold get_dependency_data
  rw [hl]
  exact if_neg hc

/-- C4 witness: a cache covering `[0, 10]` does not cover the request
`[0, 20]`, so the full range is re-fetched and the call errors. -/
theorem c4_witness :
    get_dependency_data c4fetch [("D4", ⟨[0, 5, 10], [1, 2, 3], []⟩)] "D4" 0 20 =
      ⟨[("D4", ⟨[0, 5, 10], [1, 2, 3], []⟩)], [(0, 20)],
       Except.error PyErr.nameError⟩ :=
  c4_partial_coverage_refetches_full_range c4fetch
    [("D4", ⟨[0, 5, 10], [1, 2, 3], []⟩)] "D4" 0 20 ⟨[0, 5, 10], [1, 2, 3], []⟩
    (by with_unfolding_all rfl)
    (of_decide_eq_false (by with_unfolding_all rfl))

/-- C5 fixture: dependency values `[5,5,6,5,5]`; the differences
`[0,1,1,0]` give robust variance `1/4`, threshold² `9/4`, so no difference
is flagged. -/
def c5dep2 : EdbSeries := ⟨[0, 1, 2, 3, 4], [5, 5, 6, 5, 5], []⟩

/-- C5 counterexample: a series on which zero indices are flagged, yet the
detector produces zero groups, not one group covering the whole series:
all output arrays are empty. -/
theorem c5_counterexample :
    jumpIndices c5dep2.euvalues 3 = [] ∧
    find_all_changes [("U", c5dep2)] ⟨[0, 1, 2], [3, 3, 3], []⟩ [⟨"U", "<", 9⟩] 3 =
      Except.ok emptyEC ∧
    emptyEC.all_means.length ≠ 1 :=
  ⟨by with_unfolding_all rfl, by with_unfolding_all rfl, by decide⟩

/-- C5 (corrected): whenever zero indices are flagged for the (single)
dependency, `find_all_changes` returns eight empty arrays — zero groups;
no implicit whole-series group is produced. -/
theorem c5_zero_flags_zero_groups (qr : List (String × EdbSeries))
    (mnem : EdbSeries) (d : DepSpec) (threshold : ℚ) (dependency : EdbSeries)
    (hl : lookupQR qr d.name = some dependency)
    (hj : jumpIndices dependency.euvalues threshold = []) :
    find_all_changes qr mnem [d] threshold = Except.ok emptyEC := by
  simp [find_all_changes, emptyEC, depBlockStats, targetLoopGo, npFancyIndex, hl, hj]

/-- C5 witness: dependency values `[1,1,2,1]` flag nothing and the
detector yields zero groups. -/
theorem c5_witness :
    find_all_changes [("V", ⟨[0, 1, 2, 3], [1, 1, 2, 1], []⟩)]
      ⟨[0, 1], [4, 4], []⟩ [⟨"V", ">", 0⟩] 3 = Except.ok emptyEC :=
  c5_zero_flags_zero_groups [("V", ⟨[0, 1, 2, 3], [1, 1, 2, 1], []⟩)]
    ⟨[0, 1], [4, 4], []⟩ ⟨"V", ">", 0⟩ 3 ⟨[0, 1, 2, 3], [1, 1, 2, 1], []⟩
    (by with_unfolding_all rfl) (by with_unfolding_all rfl)

/-- C6 fixture: samples at times `[0,4,8]` (first block, `[0,10)`) and
`[20,24,28]` (second block, `[20,30)`); the boundary list `[0, 3]` marks
index 3 as the first sample of the second block. -/
def c6series : EdbSeries := ⟨[0, 4, 8, 20, 24, 28], [1, 2, 3, 4, 5, 6], [0, 3]⟩

/-- The bins `calc_timed_stats` actually produces on the C6 fixture. -/
def c6bins : List (ℚ × ℚ) := [(0, 5), (5, 10), (10, 15), (15, 20)]

/-- C6 counterexample: with blocks `[0,10)` and `[20,30)` and bin width 5,
the produced bins are not `[0,5),[5,10),[20,25),[25,30)`: the bin
`[15,20)` straddling the filtering gap is produced and the second block's
bin `[20,25)` is not. -/
theorem c6_counterexample :
    timedStatsBins c6series 5 = Except.ok c6bins ∧
    c6bins ≠ [(0, 5), (5, 10), (20, 25), (25, 30)] ∧
    ((15 : ℚ), (20 : ℚ)) ∈ c6bins ∧ ((20 : ℚ), (25 : ℚ)) ∉ c6bins :=
  ⟨by with_unfolding_all rfl, of_decide_eq_false (by with_unfolding_all rfl),
   of_decide_eq_true (by with_unfolding_all rfl),
   of_decide_eq_false (by with_unfolding_all rfl)⟩

/-- C6 (corrected): bins are generated per consecutive boundary pair and
span from the first sample of one block to the first sample of the next
block (plus one second), so bins cover the filtering-induced gap; on the
fixture the bins are exactly `[0,5),[5,10),[10,15),[15,20)`.  The final
block never yields bins: with a single boundary `[0]` no bin is produced
at all. -/
theorem c6_bins_follow_boundary_pairs :
    timedStatsBins c6series 5 = Except.ok c6bins ∧
    timedStatsBins ⟨[0, 4, 8], [1, 1, 1], [0]⟩ 5 = Except.ok [] :=
  ⟨by with_unfolding_all rfl, by with_unfolding_all rfl⟩

/-- C7 fixture: per-window processing that fails on the first window and
would succeed on any other. -/
def c7getInfo : ℚ → ℚ → Except PyErr (Option EdbSeries) := fun s _ =>
  if s = 0 then Except.error PyErr.valueError else Except.ok none

/-- C7 counterexample: with two windows, a fetch failure in the first
window is fatal — the loop never reaches the second window, so the
failure is not logged-and-skipped as the claim states. -/
theorem c7_counterexample :
    (run_windows c7getInfo [0, 1] [1, 2]).1 = [(0, 1)] ∧
    (run_windows c7getInfo [0, 1] [1, 2]).1 ≠ [(0, 1), (1, 2)] ∧
    (run_windows c7getInfo [0, 1] [1, 2]).2 = Except.error PyErr.valueError :=
  ⟨by with_unfolding_all rfl, of_decide_eq_false (by with_unfolding_all rfl),
   by with_unfolding_all rfl⟩

/-- C7 (corrected): for every window list, processing of a mnemonic ends
during the first window — an exception from the window body propagates
(the loop has no handler), and even a successful body raises
`UnboundLocalError` at line 647 — so any window failure aborts the whole
mnemonic and later windows are never processed. -/
theorem c7_any_failure_aborts_mnemonic
    (getInfo : ℚ → ℚ → Except PyErr (Option EdbSeries)) (s e : ℚ)
    (ss es : List ℚ) :
    (run_windows getInfo (s :: ss) (e :: es)).1 = [(s, e)] ∧
    ∃ err, (run_windows getInfo (s :: ss) (e :: es)).2 = Except.error err := by
  cases hg : getInfo s e with
  | error err => exact ⟨by simp [run_windows, hg], err, by simp [run_windows, hg]⟩
  | ok v =>
    exact ⟨by simp [run_windows, hg], PyErr.nameError, by simp [run_windows, hg]⟩

/-- C8 (code_bug): a query window entirely in the future is not removed —
the source's list filtering raises `TypeError` instead (lines 633-634
apply a numpy boolean mask to Python lists), while window lists ending in
the past pass through untouched. -/
theorem c8_future_window_filter_type_error :
    filter_future_windows 10 [11] [12] = Except.error PyErr.typeError ∧
    filter_future_windows 10 [5, 6] [6, 7] = Except.ok ([5, 6], [6, 7]) :=
  ⟨by with_unfolding_all rfl, by with_unfolding_all rfl⟩

/-- C9 (confirmed): filtering with an empty dependency list returns the
input series unchanged — every sample, value and the order are those of
the input, whatever the non-empty-branch behaviour is. -/
theorem c9_empty_dependency_list_identity
    (filterWithDeps : EdbSeries → List DepSpec → EdbSeries) (data : EdbSeries) :
    filter_telemetry filterWithDeps data [] = data := rfl

/-- C10 fixture: a constant dependency `[5,5,5,5]`; all first differences
are 0, the robust stdev is 0, so every difference index is flagged and
`jump_times` is nonempty. -/
def c10dep : EdbSeries := ⟨[0, 1, 2, 3], [5, 5, 5, 5], []⟩

/-- C10 (code_bug): with at least one flagged index the target-side loop
reads `jump_times[i+1]` at `i = len(jump_times) - 1`, one past the end of
the array, and `find_all_changes` raises `IndexError`. -/
theorem c10_jump_times_index_error :
    jumpIndices c10dep.euvalues 3 = [1, 2, 3] ∧
    find_all_changes [("E", c10dep)] ⟨[0, 1, 2, 3], [9, 9, 9, 9], []⟩
      [⟨"E", "=", 5⟩] 3 = Except.error PyErr.indexError :=
  ⟨by with_unfolding_all rfl, by with_unfolding_all rfl⟩
